import Mathlib

/-
Verification of the outscale docker-machine driver (driver/outscale/amazonec2.go).

Modelling conventions:
* Remote SDK calls and file-system operations are modelled by oracles: records
  holding the outcome each call would produce.  The driver code is translated
  statement by statement against those outcomes.
* Go's three ways out of a function are modelled by `GoResult`: a normal value,
  a returned `error` (carried as its message string), or a runtime panic (for
  nil-pointer dereferences, out-of-range slicing and out-of-range indexing).
* Pointer-typed SDK fields whose nilness the code observes, or that the code
  dereferences unchecked, are modelled as `Option`; pointer fields that are
  only ever constructed and passed along are modelled as plain values.
* Calls that mutate remote state are recorded in an ordered trace
  (`RemoteCall`); read-only describe calls are not mutations and only their
  results appear (in the oracles).
-/

namespace Outscale

/-- Outcome of a Go function: a value, a returned error, or a runtime panic. -/
inductive GoResult (α : Type) where
  | ok (a : α)
  | err (e : String)
  | panic
deriving DecidableEq, Repr

/-- ec2.Tag (Key/Value, modelled as the strings the driver always supplies). -/
structure Tag where
  Key : String
  Value : String
deriving DecidableEq, Repr

/-- ec2.IpRange. -/
structure IpRange where
  CidrIp : String
deriving DecidableEq, Repr

/-- ec2.UserIdGroupPair; the GroupId pointer is passed along unchecked. -/
structure UserIdGroupPair where
  GroupId : Option String
deriving DecidableEq, Repr

/-- ec2.IpPermission.  FromPort is nil-checked by the diff loop, so it is an
Option; IpProtocol is always dereferenced on the same entries. -/
structure IpPermission where
  IpProtocol : String
  FromPort : Option Int
  ToPort : Option Int
  IpRanges : List IpRange
  UserIdGroupPairs : List UserIdGroupPair
deriving DecidableEq, Repr

/-- ec2.SecurityGroup. -/
structure SecurityGroup where
  GroupId : Option String
  GroupName : String
  VpcId : Option String
  IpPermissions : List IpPermission
  Tags : List Tag
deriving DecidableEq, Repr

/-- ec2.Instance; the driver dereferences these pointer fields after checking
(or without checking, which the model surfaces as a panic). `StateName`
collapses the State.Name double pointer. -/
structure Instance where
  InstanceId : Option String
  PrivateIpAddress : Option String
  PublicIpAddress : Option String
  StateName : Option String
  KeyName : Option String
deriving DecidableEq, Repr

/-- ec2.Reservation. -/
structure Reservation where
  Instances : List Instance
deriving DecidableEq, Repr

/-- ec2.EbsBlockDevice (fields the driver touches). -/
structure EbsBlockDevice where
  VolumeSize : Option Int
  VolumeType : Option String
  DeleteOnTermination : Option Bool
deriving DecidableEq, Repr

/-- ec2.BlockDeviceMapping; DeviceName is dereferenced unconditionally on
entries with a non-nil Ebs. -/
structure BlockDeviceMapping where
  DeviceName : String
  Ebs : Option EbsBlockDevice
deriving DecidableEq, Repr

/-- libmachine state.State enumeration (the values GetState can yield). -/
inductive MachineState where
  | Starting
  | Running
  | Stopping
  | Stopped
  | Error
deriving DecidableEq, Repr

-- Constants from the source file.

def ipRange : String := "0.0.0.0/0"

def machineSecurityGroupName : String := "rancher-nodes"

def machineTag : String := "rancher-nodes"

def defaultSecurityGroup : String := machineSecurityGroupName

def charset : String := "abcdefghijklmnopqrstuvwxyzABCDEFGHIJKLMNOPQRSTUVWXYZ"

def charList : List Char := charset.data

def dockerPort : Int := 2376

def kubeApiPort : Int := 6443

def httpPort : Int := 80

def httpsPort : Int := 443

def nodeExporter : Int := 9796

def etcdPorts : List Int := [2379, 2380]

def vxlanPorts : List Int := [4789, 4789]

def flannelPorts : List Int := [8472, 8472]

def otherKubePorts : List Int := [10250, 10252]

def kubeProxyPorts : List Int := [10256, 10256]

def nodePorts : List Int := [30000, 32767]

def calicoPort : Int := 179

/-- errorReadingUserData sentinel (errors.New message). -/
def errorReadingUserData : String := "unable to read --outscale-userdata file"

-- Go string helpers, modelled over the character list of a `String`.

/-- Does cs start with the pattern ps?  (strings.HasPrefix, char level.) -/
def listStartsWith : List Char → List Char → Bool
  | _, [] => true
  | [], _ :: _ => false
  | c :: cs, p :: ps => c = p && listStartsWith cs ps

/-- strings.HasPrefix. -/
def goStartsWith (s pre : String) : Bool := listStartsWith s.data pre.data

/-- Does the list contain the pattern as a contiguous run? -/
def listContainsSub : List Char → List Char → Bool
  | [], pat => listStartsWith [] pat
  | s@(_ :: rest), pat => listStartsWith s pat || listContainsSub rest pat

/-- strings.Contains. -/
def goContains (s sub : String) : Bool := listContainsSub s.data sub.data

/-- strings.IndexByte: index of the first occurrence, or -1 (char level; the
host names involved are ASCII). -/
def indexByteAux : List Char → Char → Int
  | [], _ => -1
  | c :: rest, b =>
    if c = b then 0
    else
      let r := indexByteAux rest b
      if r < 0 then -1 else r + 1

/-- strings.IndexByte on a String. -/
def indexByte (s : String) (b : Char) : Int := indexByteAux s.data b

/-- Go slice expression s[:i]: panics (none) when i is negative or past the
end, otherwise the prefix of length i. -/
def goSliceTo (s : String) (i : Int) : Option String :=
  if i < 0 ∨ i > (s.data.length : Int) then none
  else some (String.mk (s.data.take i.toNat))

/-- fmt.Sprintf("%d/%s", port, proto). -/
def portProtoKey (fp : Int) (proto : String) : String := toString fp ++ "/" ++ proto

/-- strings.Split on a one-character separator (char level). -/
def splitCharAux : List Char → Char → List Char → List (List Char)
  | [], _, cur => [cur.reverse]
  | c :: rest, sep, cur =>
    if c = sep then cur.reverse :: splitCharAux rest sep []
    else splitCharAux rest sep (c :: cur)

/-- strings.Split(s, sep) for a one-character separator. -/
def splitChar (s : String) (sep : Char) : List String :=
  (splitCharAux s.data sep []).map String.mk

/-- Split at the first occurrence of a character, keeping the remainder whole
(strings.SplitN with n = 2). -/
def splitFirstAux : List Char → Char → Option (List Char × List Char)
  | [], _ => none
  | c :: rest, sep =>
    if c = sep then some ([], rest)
    else
      match splitFirstAux rest sep with
      | none => none
      | some (l, r) => some (c :: l, r)

/-- Modelled from the spec: extra open ports are parsed as "port[/protocol]"
with the protocol defaulting to tcp when omitted (docker-machine
driverutil.SplitPortProto, a dependency that is not part of this repository). -/
def SplitPortProto (raw : String) : String × String :=
  match splitFirstAux raw.data '/' with
  | none => (raw, "tcp")
  | some (port, proto) => (String.mk port, String.mk proto)

/-- Decimal digit-run parser (helper for parseInt10). -/
def parseDigitsAux : List Char → Nat → Option Nat
  | [], acc => some acc
  | c :: rest, acc =>
    if c.isDigit then parseDigitsAux rest (acc * 10 + (c.toNat - 48)) else none

/-- Non-empty decimal digit run. -/
def parseDigits : List Char → Option Nat
  | [] => none
  | l => parseDigitsAux l 0

/-- Modelled from the spec: the numeric parse of an extra-port specification,
optional sign followed by decimal digits; an unparsable port number is a
fatal configuration error (strconv.ParseInt(port, 10, 0), Go standard
library; the int64 range check is irrelevant at port magnitudes). -/
def parseInt10 (s : String) : Option Int :=
  match s.data with
  | '-' :: rest => (parseDigits rest).map (fun n => -(n : Int))
  | '+' :: rest => (parseDigits rest).map (fun n => (n : Int))
  | l => (parseDigits l).map (fun n => (n : Int))

/-- Base64 alphabet (RFC 4648, as used by base64.StdEncoding). -/
def base64Alphabet : List Char :=
  "ABCDEFGHIJKLMNOPQRSTUVWXYZabcdefghijklmnopqrstuvwxyz0123456789+/".data

/-- One base64 digit. -/
def b64Char (n : Nat) : Char := base64Alphabet.getD (n % 64) 'A'

/-- base64.StdEncoding applied to a byte list, chunked in threes with padding. -/
def base64Chunks : List Nat → List Char
  | b1 :: b2 :: b3 :: rest =>
    let n := (b1 % 256) * 65536 + (b2 % 256) * 256 + b3 % 256
    b64Char (n / 262144) :: b64Char (n / 4096) :: b64Char (n / 64) :: b64Char n ::
      base64Chunks rest
  | [b1, b2] =>
    let n := (b1 % 256) * 65536 + (b2 % 256) * 256
    [b64Char (n / 262144), b64Char (n / 4096), b64Char (n / 64), '=']
  | [b1] =>
    let n := (b1 % 256) * 65536
    [b64Char (n / 262144), b64Char (n / 4096), '=', '=']
  | [] => []

/-- base64.StdEncoding.EncodeToString. -/
def base64Encode (buf : List Nat) : String := String.mk (base64Chunks buf)

/-- migrateStringToSlice from the source. -/
def migrateStringToSlice (value : String) (values : List String) : List String :=
  (if value ≠ "" then [value] else []) ++ values

/-- hasTagKey from the source. -/
def hasTagKey (tags : List Tag) (key : String) : Bool :=
  tags.any (fun t => t.Key = key)

/-- The Driver struct fields the modelled code paths read or write. -/
structure DriverState where
  MachineName : String
  InstanceId : String
  KeyName : String
  ExistingKey : Bool
  SSHPrivateKeyPath : String
  UserDataFile : String
  Tags : String
  DeviceName : String
  RootSize : Int
  VolumeType : String
  OpenPorts : List String
  SecurityGroupName : String
  SecurityGroupNames : List String
  SecurityGroupIds : List String
  PrivateIPOnly : Bool
  UsePrivateIP : Bool
  HttpEndpoint : String
  HttpTokens : String
  AllocationId : String
  PublicIp : String
  PrivateIPAddress : String
  VpcId : String
  bdmList : List BlockDeviceMapping
deriving Repr

/-- A state-mutating remote API call, as recorded in the trace.  Both
createTagsGroup and createTagsInstance stand for ec2 CreateTags, split by
call site so the trace identifies the resource being tagged. -/
inductive RemoteCall where
  | importKeyPair (keyName : String) (publicKey : String)
  | createSecurityGroup (name : String)
  | createTagsGroup (groupId : Option String)
  | authorizeIngress (groupId : Option String) (perms : List IpPermission)
  | runInstances
  | allocateAddress
  | associateAddress (allocationId : String) (instanceId : String) (publicIp : String)
  | modifyInstanceMetadataOptions (instanceId : String)
  | createTagsInstance (instanceId : String) (tags : List Tag)
  | terminateInstances (instanceId : String)
  | deleteKeyPair (keyName : Option String)
deriving DecidableEq, Repr

/-- Outcomes of the remote calls and local file operations innerCreate makes,
in one record (`none` for an error-typed field means the call succeeded). -/
structure Oracle where
  generateSSHKey : Option String
  copyPrivateKey : Option String
  copyPublicKey : Option String
  readPublicKey : Except String String
  randIdx : Fin 5 → Nat
  importKeyPair : Option String
  describeSecurityGroups : Except String (List SecurityGroup)
  createSecurityGroup : String → Except String (Option String)
  describeSecurityGroupsAgain : String → Except String (List SecurityGroup)
  createGroupTags : String → Option String
  waitGroup : String → Option String
  authorizeIngress : String → Option String
  version : String
  readUserData : Except String (List Nat)
  runInstances : Except String (List Instance)
  allocateAddress : Except String (Option String × Option String)
  associateAddress : Option String
  waitForIp : Option String
  modifyMetadata : Option String
  createInstanceTags : Option String

/-- Outcomes of the remote calls Remove (terminate/deleteKeyPair) makes. -/
structure RemoveOracle where
  terminateInstances : Option String
  describeInstances : Except String (List Reservation)
  deleteKeyPairRes : Option String

/-- Result triple of a driver step: outcome, updated driver fields, and the
ordered trace of mutating remote calls the step submitted. -/
structure StepOut where
  res : GoResult Unit
  st : DriverState
  trace : List RemoteCall

-- Tagging (configureTags).

/-- The trailing-pair loop of configureTags: key/value in pairs, an unpaired
trailing token dropped. -/
def pairTags : List String → List Tag
  | k :: v :: rest => { Key := k, Value := v } :: pairTags rest
  | _ => []

/-- The tag list configureTags builds before calling CreateTags; `none` when
the cluster-name slice panics (host name without a hyphen). -/
def buildTags (machineName tagGroups : String) : Option (List Tag) :=
  let tags : List Tag := [{ Key := "Name", Value := machineName }]
  match goSliceTo machineName (indexByte machineName '-') with
  | none => none
  | some clusterName =>
    let tags := tags ++
      [{ Key := "OscK8sClusterID/" ++ clusterName, Value := "owned" },
       { Key := "OscK8sNodeName", Value := machineName }]
    let tags := if tagGroups ≠ "" then tags ++ pairTags (splitChar tagGroups ',') else tags
    some tags

/-- configureTags from the source: build the tag list (panicking when the
host name has no hyphen), then submit CreateTags on the instance. -/
def configureTags (machineName instanceId tagGroups : String) (createRes : Option String) :
    GoResult Unit × List RemoteCall :=
  match buildTags machineName tagGroups with
  | none => (.panic, [])
  | some tags =>
    match createRes with
    | some e => (.err e, [.createTagsInstance instanceId tags])
    | none => (.ok (), [.createTagsInstance instanceId tags])

-- Security-group permission diff (configureSecurityGroupPermissions).

/-- The port/protocol keys of the group's existing inbound permissions
(hasPortsInbound: entries with a nil FromPort contribute nothing). -/
def inboundKeys (perms : List IpPermission) : List String :=
  perms.foldl
    (fun acc p =>
      match p.FromPort with
      | some fp => acc ++ [portProtoKey fp p.IpProtocol]
      | none => acc)
    []

/-- An inbound rule open to the world (IpRanges = 0.0.0.0/0). -/
def cidrRule (proto : String) (fromP toP : Int) : IpPermission :=
  { IpProtocol := proto, FromPort := some fromP, ToPort := some toP,
    IpRanges := [{ CidrIp := ipRange }], UserIdGroupPairs := [] }

/-- An inbound rule restricted to peers of the same group. -/
def groupPairRule (g : SecurityGroup) (proto : String) (fromP toP : Int) : IpPermission :=
  { IpProtocol := proto, FromPort := some fromP, ToPort := some toP,
    IpRanges := [], UserIdGroupPairs := [{ GroupId := g.GroupId }] }

/-- The rule built for one user-requested extra open port. -/
def openPortRule (portNum : Int) (protocol : String) : IpPermission :=
  { IpProtocol := protocol, FromPort := some portNum, ToPort := some portNum,
    IpRanges := [{ CidrIp := ipRange }], UserIdGroupPairs := [] }

/-- The extra-open-ports loop at the end of configureSecurityGroupPermissions:
parse each "port[/protocol]", fail on an unparsable number, append the rule
when its key is not already present. -/
def addOpenPorts (keys : List String) (acc : List IpPermission) :
    List String → Except String (List IpPermission)
  | [] => .ok acc
  | p :: rest =>
    let pp := SplitPortProto p
    match parseInt10 pp.1 with
    | none => .error ("invalid port number " ++ pp.1)
    | some portNum =>
      addOpenPorts keys
        (if !(keys.contains (pp.1 ++ "/" ++ pp.2)) then acc ++ [openPortRule portNum pp.2]
         else acc)
        rest

/-- configureSecurityGroupPermissions from the source: diff the desired rules
against the existing port/protocol keys and return only the missing ones. -/
def configureSecurityGroupPermissions (st : DriverState) (group : SecurityGroup) :
    Except String (List IpPermission) :=
  let keys := inboundKeys group.IpPermissions
  let perms : List IpPermission := []
  let perms := if !(keys.contains "22/tcp") then perms ++ [cidrRule "tcp" 22 22] else perms
  let perms :=
    if !(keys.contains (portProtoKey dockerPort "tcp")) then
      perms ++ [cidrRule "tcp" dockerPort dockerPort]
    else perms
  let perms :=
    if group.GroupName = defaultSecurityGroup && hasTagKey group.Tags machineSecurityGroupName then
      let perms :=
        if !(keys.contains (portProtoKey kubeApiPort "tcp")) then
          perms ++ [cidrRule "tcp" kubeApiPort kubeApiPort]
        else perms
      let perms :=
        if !(keys.contains (portProtoKey 2379 "tcp")) then
          perms ++ [groupPairRule group "tcp" 2379 2380]
        else perms
      let perms :=
        if !(keys.contains (portProtoKey 4789 "udp")) then
          perms ++ [groupPairRule group "udp" 4789 4789]
        else perms
      let perms :=
        if !(keys.contains (portProtoKey 8472 "udp")) then
          perms ++ [groupPairRule group "udp" 8472 8472]
        else perms
      let perms :=
        if !(keys.contains (portProtoKey 10250 "tcp")) then
          perms ++ [groupPairRule group "tcp" 10250 10252]
        else perms
      let perms :=
        if !(keys.contains (portProtoKey 10256 "tcp")) then
          perms ++ [groupPairRule group "tcp" 10256 10256]
        else perms
      let perms :=
        if !(keys.contains (portProtoKey nodeExporter "tcp")) then
          perms ++ [groupPairRule group "tcp" nodeExporter nodeExporter]
        else perms
      let perms :=
        if !(keys.contains (portProtoKey 30000 "tcp")) then
          perms ++ [cidrRule "tcp" 30000 32767]
        else perms
      let perms :=
        if !(keys.contains (portProtoKey 30000 "udp")) then
          perms ++ [cidrRule "udp" 30000 32767]
        else perms
      let perms :=
        if !(keys.contains (portProtoKey httpPort "tcp")) then
          perms ++ [cidrRule "tcp" httpPort httpPort]
        else perms
      let perms :=
        if !(keys.contains (portProtoKey httpsPort "tcp")) then
          perms ++ [cidrRule "tcp" httpsPort httpsPort]
        else perms
      let perms :=
        if !(keys.contains (portProtoKey calicoPort "tcp")) then
          perms ++ [groupPairRule group "tcp" calicoPort calicoPort]
        else perms
      perms
    else perms
  addOpenPorts keys perms st.OpenPorts

-- Specification-side characterization of the diff as key/rule pairs.

/-- The two rules required for every group, with their diff keys. -/
def basePairs : List (String × IpPermission) :=
  [("22/tcp", cidrRule "tcp" 22 22),
   (portProtoKey dockerPort "tcp", cidrRule "tcp" dockerPort dockerPort)]

/-- The additional rules for the managed rancher-nodes group, with their keys. -/
def customPairs (g : SecurityGroup) : List (String × IpPermission) :=
  [(portProtoKey kubeApiPort "tcp", cidrRule "tcp" kubeApiPort kubeApiPort),
   (portProtoKey 2379 "tcp", groupPairRule g "tcp" 2379 2380),
   (portProtoKey 4789 "udp", groupPairRule g "udp" 4789 4789),
   (portProtoKey 8472 "udp", groupPairRule g "udp" 8472 8472),
   (portProtoKey 10250 "tcp", groupPairRule g "tcp" 10250 10252),
   (portProtoKey 10256 "tcp", groupPairRule g "tcp" 10256 10256),
   (portProtoKey nodeExporter "tcp", groupPairRule g "tcp" nodeExporter nodeExporter),
   (portProtoKey 30000 "tcp", cidrRule "tcp" 30000 32767),
   (portProtoKey 30000 "udp", cidrRule "udp" 30000 32767),
   (portProtoKey httpPort "tcp", cidrRule "tcp" httpPort httpPort),
   (portProtoKey httpsPort "tcp", cidrRule "tcp" httpsPort httpsPort),
   (portProtoKey calicoPort "tcp", groupPairRule g "tcp" calicoPort calicoPort)]

/-- The user-requested extra open ports as key/rule pairs (total only when
every port parses; the theorems assume exactly that). -/
def openPortPairs (ports : List String) : List (String × IpPermission) :=
  ports.map (fun p =>
    let pp := SplitPortProto p
    (pp.1 ++ "/" ++ pp.2, openPortRule ((parseInt10 pp.1).getD 0) pp.2))

/-- All rules the reconciliation wants for a group, in submission order. -/
def desiredPairs (st : DriverState) (g : SecurityGroup) : List (String × IpPermission) :=
  basePairs ++
    (if g.GroupName = defaultSecurityGroup && hasTagKey g.Tags machineSecurityGroupName then
      customPairs g
     else []) ++
    openPortPairs st.OpenPorts

/-- Fold that appends each rule whose key is not yet present. -/
def chainFold (keys : List String) (acc : List IpPermission)
    (pairs : List (String × IpPermission)) : List IpPermission :=
  pairs.foldl (fun a kr => if !(keys.contains kr.1) then a ++ [kr.2] else a) acc

-- Security-group reconciliation (configureSecurityGroups).

/-- groupsByName: the Go map indexed by group name (a later duplicate wins). -/
def groupsByName (gs : List SecurityGroup) (n : String) : Option SecurityGroup :=
  (gs.filter (fun g => g.GroupName = n)).getLast?

/-- Tail of group creation: install the local management tag and wait for the
group to become visible (`*group.GroupId` dereference panics when nil). -/
def waitGroupStep (o : Oracle) (g : SecurityGroup) (tr : List RemoteCall) :
    GoResult SecurityGroup × List RemoteCall :=
  let g := { g with Tags := [{ Key := machineTag, Value := o.version }] }
  match g.GroupId with
  | none => (.panic, tr)
  | some gid =>
    match o.waitGroup gid with
    | some e => (.err e, tr)
    | none => (.ok g, tr)

/-- Tag a freshly created (or adopted) group; an "already exists" CreateTags
error is tolerated. -/
def tagAndWaitGroup (o : Oracle) (g : SecurityGroup) (tr : List RemoteCall) :
    GoResult SecurityGroup × List RemoteCall :=
  let tr := tr ++ [RemoteCall.createTagsGroup g.GroupId]
  match o.createGroupTags g.GroupName with
  | some e =>
    if goContains e "already exists" then waitGroupStep o g tr
    else (.err ("can't create tag for security group. err: " ++ e), tr)
  | none => waitGroupStep o g tr

/-- Resolve one requested group: adopt the existing one, else create it, with
the "already exists" re-describe fallback from the source. -/
def resolveGroup (o : Oracle) (gbn : String → Option SecurityGroup) (st : DriverState)
    (groupName : String) : GoResult SecurityGroup × List RemoteCall :=
  match gbn groupName with
  | some g => (.ok g, [])
  | none =>
    match o.createSecurityGroup groupName with
    | .ok gidOpt =>
      tagAndWaitGroup o
        { GroupId := gidOpt, GroupName := groupName, VpcId := some st.VpcId,
          IpPermissions := [], Tags := [] }
        [RemoteCall.createSecurityGroup groupName]
    | .error e =>
      if !(goContains e "already exists") then (.err e, [RemoteCall.createSecurityGroup groupName])
      else
        match o.describeSecurityGroupsAgain groupName with
        | .error e2 => (.err e2, [RemoteCall.createSecurityGroup groupName])
        | .ok gs =>
          match gs with
          | [] => (.err "can't find security group", [RemoteCall.createSecurityGroup groupName])
          | g :: _ => tagAndWaitGroup o g [RemoteCall.createSecurityGroup groupName]

/-- One iteration of the configureSecurityGroups loop: record the group id,
compute the missing rules, submit them only when there are any. -/
def configureOneGroup (o : Oracle) (gbn : String → Option SecurityGroup) (st : DriverState)
    (groupName : String) : StepOut :=
  match resolveGroup o gbn st groupName with
  | (.panic, tr) => ⟨.panic, st, tr⟩
  | (.err e, tr) => ⟨.err e, st, tr⟩
  | (.ok g, tr) =>
    match g.GroupId with
    | none => ⟨.panic, st, tr⟩
    | some gid =>
      let st := { st with SecurityGroupIds := st.SecurityGroupIds ++ [gid] }
      match configureSecurityGroupPermissions st g with
      | .error e => ⟨.err e, st, tr⟩
      | .ok inboundPerms =>
        if inboundPerms.length ≠ 0 then
          let tr := tr ++ [RemoteCall.authorizeIngress g.GroupId inboundPerms]
          match o.authorizeIngress gid with
          | some e =>
            if goContains e "already exists" then ⟨.ok (), st, tr⟩ else ⟨.err e, st, tr⟩
          | none => ⟨.ok (), st, tr⟩
        else ⟨.ok (), st, tr⟩

/-- The loop over the requested group names. -/
def configureGroupsLoop (o : Oracle) (gbn : String → Option SecurityGroup) :
    DriverState → List String → StepOut
  | st, [] => ⟨.ok (), st, []⟩
  | st, n :: rest =>
    let r := configureOneGroup o gbn st n
    match r.res with
    | .ok _ =>
      let r2 := configureGroupsLoop o gbn r.st rest
      ⟨r2.res, r2.st, r.trace ++ r2.trace⟩
    | .err e => ⟨.err e, r.st, r.trace⟩
    | .panic => ⟨.panic, r.st, r.trace⟩

/-- configureSecurityGroups from the source. -/
def configureSecurityGroups (o : Oracle) (st : DriverState) (groupNames : List String) :
    StepOut :=
  if groupNames.length = 0 then ⟨.ok (), st, []⟩
  else
    match o.describeSecurityGroups with
    | .error e => ⟨.err e, st, []⟩
    | .ok groups => configureGroupsLoop o (groupsByName groups) st groupNames

/-- securityGroupNames from the source. -/
def securityGroupNames (st : DriverState) : List String :=
  migrateStringToSlice st.SecurityGroupName st.SecurityGroupNames

-- Key-pair creation (createKeyPair).

/-- The 5-character random suffix: each index is r.Intn(len(charset)). -/
def keySuffix (o : Oracle) : String :=
  String.mk (List.ofFn (fun i : Fin 5 => charList.getD (o.randIdx i) 'a'))

/-- The shared tail of createKeyPair: read the public key, derive the random
name, import it, and record it on success. -/
def createKeyPairImport (o : Oracle) (st : DriverState) : StepOut :=
  match o.readPublicKey with
  | .error e => ⟨.err e, st, []⟩
  | .ok publicKey =>
    let keyName := st.MachineName ++ "-" ++ keySuffix o
    match o.importKeyPair with
    | some e => ⟨.err e, st, [RemoteCall.importKeyPair keyName publicKey]⟩
    | none => ⟨.ok (), { st with KeyName := keyName }, [RemoteCall.importKeyPair keyName publicKey]⟩

/-- createKeyPair from the source: generate or copy the local key material,
return early for a caller-supplied existing remote key pair, otherwise import. -/
def createKeyPair (o : Oracle) (st : DriverState) : StepOut :=
  if st.SSHPrivateKeyPath = "" then
    match o.generateSSHKey with
    | some e => ⟨.err e, st, []⟩
    | none => createKeyPairImport o st
  else
    match o.copyPrivateKey with
    | some e => ⟨.err e, st, []⟩
    | none =>
      if st.KeyName ≠ "" then ⟨.ok (), st, []⟩
      else
        match o.copyPublicKey with
        | some e => ⟨.err e, st, []⟩
        | none => createKeyPairImport o st

-- User data and block-device mappings.

/-- Base64UserData from the source: a failed read of the configured user-data
file becomes the named errorReadingUserData, not the underlying I/O error. -/
def Base64UserData (o : Oracle) (st : DriverState) : Except String String :=
  if st.UserDataFile ≠ "" then
    match o.readUserData with
    | .error _ => .error errorReadingUserData
    | .ok buf => .ok (base64Encode buf)
  else .ok ""

/-- The per-entry mutation of updateBDMList: override size/type on the root
device, force DeleteOnTermination on every kept entry. -/
def updateBDMEntry (st : DriverState) (bdm : BlockDeviceMapping) (ebs : EbsBlockDevice) :
    BlockDeviceMapping :=
  let ebs :=
    if bdm.DeviceName = st.DeviceName then
      { ebs with VolumeSize := some st.RootSize, VolumeType := some st.VolumeType }
    else ebs
  { bdm with Ebs := some { ebs with DeleteOnTermination := some true } }

/-- updateBDMList from the source: entries without an Ebs block are dropped. -/
def updateBDMList (st : DriverState) : List BlockDeviceMapping :=
  st.bdmList.foldl
    (fun acc bdm =>
      match bdm.Ebs with
      | none => acc
      | some ebs => acc ++ [updateBDMEntry st bdm ebs])
    []

-- The provisioning sequence (innerCreate) and the Create facade.

/-- Final tagging step of innerCreate, wrapping a CreateTags failure. -/
def innerCreateTags (o : Oracle) (st : DriverState) (tr : List RemoteCall) : StepOut :=
  match configureTags st.MachineName st.InstanceId st.Tags o.createInstanceTags with
  | (.panic, tr2) => ⟨.panic, st, tr ++ tr2⟩
  | (.err e, tr2) => ⟨.err ("Unable to tag instance " ++ st.InstanceId ++ ": " ++ e), st, tr ++ tr2⟩
  | (.ok _, tr2) => ⟨.ok (), st, tr ++ tr2⟩

/-- Metadata-options step of innerCreate, then tagging. -/
def innerCreateFinish (o : Oracle) (st : DriverState) (tr : List RemoteCall) : StepOut :=
  if st.HttpEndpoint ≠ "" ∨ st.HttpTokens ≠ "" then
    let tr := tr ++ [RemoteCall.modifyInstanceMetadataOptions st.InstanceId]
    match o.modifyMetadata with
    | some e =>
      ⟨.err ("Error modifying instance metadata options for instance: " ++ e), st, tr⟩
    | none => innerCreateTags o st tr
  else innerCreateTags o st tr

/-- innerCreate from the source: key pair, security groups, user data, block
devices, RunInstances, elastic-IP allocation/association, waits, metadata,
tags.  The waitForInstance() call after RunInstances discards its result in
the source and is modelled accordingly (no effect on the outcome). -/
def innerCreate (o : Oracle) (st : DriverState) : StepOut :=
  match createKeyPair o st with
  | ⟨.err e, st1, tr1⟩ => ⟨.err ("unable to create key pair: " ++ e), st1, tr1⟩
  | ⟨.panic, st1, tr1⟩ => ⟨.panic, st1, tr1⟩
  | ⟨.ok _, st1, tr1⟩ =>
    match configureSecurityGroups o st1 (securityGroupNames st1) with
    | ⟨.err e, st2, tr2⟩ => ⟨.err e, st2, tr1 ++ tr2⟩
    | ⟨.panic, st2, tr2⟩ => ⟨.panic, st2, tr1 ++ tr2⟩
    | ⟨.ok _, st2, tr2⟩ =>
      let tr := tr1 ++ tr2
      match Base64UserData o st2 with
      | .error e => ⟨.err e, st2, tr⟩
      | .ok _userdata =>
        match o.runInstances with
        | .error e => ⟨.err ("Error launching instance: " ++ e), st2, tr ++ [RemoteCall.runInstances]⟩
        | .ok instances =>
          match instances with
          | [] => ⟨.panic, st2, tr ++ [RemoteCall.runInstances]⟩
          | inst :: _ =>
            let tr := tr ++ [RemoteCall.runInstances]
            match inst.InstanceId with
            | none => ⟨.panic, st2, tr⟩
            | some iid =>
              let st3 := { st2 with InstanceId := iid }
              match o.allocateAddress with
              | .error e =>
                ⟨.err ("Error allocating external IP: " ++ e), st3, tr ++ [RemoteCall.allocateAddress]⟩
              | .ok eip =>
                let tr := tr ++ [RemoteCall.allocateAddress]
                match eip.1 with
                | none => ⟨.panic, st3, tr⟩
                | some aid =>
                  match eip.2 with
                  | none => ⟨.panic, st3, tr⟩
                  | some pip =>
                    let st4 := { st3 with AllocationId := aid, PublicIp := pip }
                    let tr := tr ++ [RemoteCall.associateAddress aid iid pip]
                    match o.associateAddress with
                    | some e => ⟨.err ("Error associating external IP: " ++ e), st4, tr⟩
                    | none =>
                      match o.waitForIp with
                      | some e => ⟨.err e, st4, tr⟩
                      | none =>
                        let st5 :=
                          match inst.PrivateIpAddress with
                          | some p => { st4 with PrivateIPAddress := p }
                          | none => st4
                        innerCreateFinish o st5 tr

-- Instance queries (getInstance, GetIP, GetState).

/-- getInstance from the source: the first instance of the first reservation,
taken without any emptiness check (out-of-range indexing panics). -/
def getInstance (describeRes : Except String (List Reservation)) : GoResult Instance :=
  match describeRes with
  | .error e => .err e
  | .ok reservations =>
    match reservations with
    | [] => .panic
    | r :: _ =>
      match r.Instances with
      | [] => .panic
      | i :: _ => .ok i

/-- GetIP from the source: private address under either private-IP flag, else
the public address; a missing selected field is a named error (whose message
dereferences the instance id). -/
def GetIP (st : DriverState) (describeRes : Except String (List Reservation)) :
    GoResult String :=
  match getInstance describeRes with
  | .panic => .panic
  | .err e => .err e
  | .ok inst =>
    if st.PrivateIPOnly then
      match inst.PrivateIpAddress with
      | none =>
        match inst.InstanceId with
        | none => .panic
        | some iid => .err ("No private IP for instance " ++ iid)
      | some ip => .ok ip
    else if st.UsePrivateIP then
      match inst.PrivateIpAddress with
      | none =>
        match inst.InstanceId with
        | none => .panic
        | some iid => .err ("No private IP for instance " ++ iid)
      | some ip => .ok ip
    else
      match inst.PublicIpAddress with
      | none =>
        match inst.InstanceId with
        | none => .panic
        | some iid => .err ("No IP for instance " ++ iid)
      | some ip => .ok ip

/-- GetState from the source (state string mapping; `*inst.State.Name`
dereferenced unchecked). -/
def GetState (describeRes : Except String (List Reservation)) : GoResult MachineState :=
  match getInstance describeRes with
  | .panic => .panic
  | .err e => .err e
  | .ok inst =>
    match inst.StateName with
    | none => .panic
    | some n =>
      if n = "pending" then .ok .Starting
      else if n = "running" then .ok .Running
      else if n = "stopping" then .ok .Stopping
      else if n = "shutting-down" then .ok .Stopping
      else if n = "stopped" then .ok .Stopped
      else if n = "terminated" then .ok .Error
      else .ok .Error

-- Teardown (terminate, deleteKeyPair, Remove) and the Create facade.

/-- terminate from the source: empty instance id is a successful no-op with no
remote call; a "not found"-style terminate error is swallowed; any other
terminate error is wrapped and returned. -/
def terminate (st : DriverState) (o : RemoveOracle) : Option String × List RemoteCall :=
  if st.InstanceId = "" then (none, [])
  else
    let tr := [RemoteCall.terminateInstances st.InstanceId]
    match o.terminateInstances with
    | none => (none, tr)
    | some e =>
      if goStartsWith e "unknown instance" || goStartsWith e "InvalidInstanceID.NotFound" then
        (none, tr)
      else (some ("unable to terminate instance: " ++ e), tr)

/-- deleteKeyPair from the source: empty key name is a no-op; otherwise look
the instance up (inheriting getInstance's panic) and delete its key pair. -/
def deleteKeyPair (st : DriverState) (o : RemoveOracle) : GoResult Unit × List RemoteCall :=
  if st.KeyName = "" then (.ok (), [])
  else
    match getInstance o.describeInstances with
    | .panic => (.panic, [])
    | .err e => (.err e, [])
    | .ok inst =>
      match o.deleteKeyPairRes with
      | some e => (.err e, [RemoteCall.deleteKeyPair inst.KeyName])
      | none => (.ok (), [RemoteCall.deleteKeyPair inst.KeyName])

/-- Result of Remove: the aggregate (MultiError) list, where `.ok []` stands
for a nil return and `.ok errs` for the MultiError holding errs. -/
structure RemoveOut where
  res : GoResult (List String)
  trace : List RemoteCall
  deleteKeyPairCalled : Bool
deriving Repr

/-- Remove from the source: terminate always, deleteKeyPair only for a
system-owned key, both failures collected into the aggregate. -/
def Remove (st : DriverState) (o : RemoveOracle) : RemoveOut :=
  let t := terminate st o
  let errs1 :=
    match t.1 with
    | some e => [e]
    | none => []
  if st.ExistingKey then ⟨.ok errs1, t.2, false⟩
  else
    match deleteKeyPair st o with
    | (.panic, tr2) => ⟨.panic, t.2 ++ tr2, true⟩
    | (.err e, tr2) => ⟨.ok (errs1 ++ [e]), t.2 ++ tr2, true⟩
    | (.ok _, tr2) => ⟨.ok errs1, t.2 ++ tr2, true⟩

/-- Result of the Create facade. -/
structure CreateOut where
  res : GoResult Unit
  st : DriverState
  trace : List RemoteCall
  removeInvoked : Bool

/-- Create from the source: on an innerCreate failure it calls d.Remove() and
returns the original error; the value returned by Remove is discarded (a
panic inside Remove would still propagate). -/
def Create (o : Oracle) (ro : RemoveOracle) (st : DriverState) : CreateOut :=
  let ic := innerCreate o st
  match ic.res with
  | .ok _ => ⟨.ok (), ic.st, ic.trace, false⟩
  | .panic => ⟨.panic, ic.st, ic.trace, false⟩
  | .err e =>
    let r := Remove ic.st ro
    match r.res with
    | .panic => ⟨.panic, ic.st, ic.trace ++ r.trace, true⟩
    | _ => ⟨.err e, ic.st, ic.trace ++ r.trace, true⟩

/-- Calls submitted at or after instance launch (everything from RunInstances
on, plus teardown calls); the pre-launch mutations are key-pair import and
the security-group calls. -/
def isLaunchCall : RemoteCall → Bool
  | .runInstances => true
  | .allocateAddress => true
  | .associateAddress _ _ _ => true
  | .modifyInstanceMetadataOptions _ => true
  | .createTagsInstance _ _ => true
  | .terminateInstances _ => true
  | .deleteKeyPair _ => true
  | _ => false

-- Concrete states and oracles used by the witnesses and counterexamples.

/-- A baseline driver state for concrete runs. -/
def st0 : DriverState :=
  { MachineName := "c-a", InstanceId := "", KeyName := "", ExistingKey := false,
    SSHPrivateKeyPath := "", UserDataFile := "", Tags := "", DeviceName := "/dev/sda1",
    RootSize := 30, VolumeType := "gp2", OpenPorts := [], SecurityGroupName := "",
    SecurityGroupNames := [], SecurityGroupIds := [], PrivateIPOnly := false,
    UsePrivateIP := false, HttpEndpoint := "", HttpTokens := "", AllocationId := "",
    PublicIp := "", PrivateIPAddress := "", VpcId := "vpc-1", bdmList := [] }

/-- A baseline oracle where every operation succeeds. -/
def o0 : Oracle :=
  { generateSSHKey := none, copyPrivateKey := none, copyPublicKey := none,
    readPublicKey := .ok "PUB", randIdx := fun _ => 0, importKeyPair := none,
    describeSecurityGroups := .ok [], createSecurityGroup := fun _ => .ok (some "sg-1"),
    describeSecurityGroupsAgain := fun _ => .ok [], createGroupTags := fun _ => none,
    waitGroup := fun _ => none, authorizeIngress := fun _ => none, version := "v",
    readUserData := .ok [], runInstances := .ok [], allocateAddress := .ok (some "a", some "p"),
    associateAddress := none, waitForIp := none, modifyMetadata := none,
    createInstanceTags := none }

/-- Create scenario: key generation fails, a stale instance id is present, and
the teardown's terminate call fails too. -/
def stC1 : DriverState := { st0 with InstanceId := "i-0", ExistingKey := true }

/-- Oracle for the Create scenario (local key generation fails). -/
def oC1 : Oracle := { o0 with generateSSHKey := some "kaboom" }

/-- Remove oracle whose terminate call fails with a non-"not found" error. -/
def roC1 : RemoveOracle :=
  { terminateInstances := some "boom", describeInstances := .ok [], deleteKeyPairRes := none }

/-- User-data scenario: a user-data file is configured but unreadable. -/
def exSt3 : DriverState := { st0 with UserDataFile := "ud" }

/-- Oracle for the user-data scenario (read fails after a successful import). -/
def exO3 : Oracle := { o0 with readUserData := .error "io" }

/-- Oracle whose random indices are 0,1,2,3,4 (suffix "abcde"). -/
def oKey : Oracle := { o0 with randIdx := fun i => i.val }

/-- A managed rancher-nodes group already carrying every built-in rule. -/
def gFull : SecurityGroup :=
  { GroupId := some "sg-1", GroupName := "rancher-nodes", VpcId := some "vpc-1",
    IpPermissions :=
      [cidrRule "tcp" 22 22, cidrRule "tcp" 2376 2376, cidrRule "tcp" 6443 6443,
       cidrRule "tcp" 2379 2380, cidrRule "udp" 4789 4789, cidrRule "udp" 8472 8472,
       cidrRule "tcp" 10250 10252, cidrRule "tcp" 10256 10256, cidrRule "tcp" 9796 9796,
       cidrRule "tcp" 30000 32767, cidrRule "udp" 30000 32767, cidrRule "tcp" 80 80,
       cidrRule "tcp" 443 443, cidrRule "tcp" 179 179],
    Tags := [{ Key := "rancher-nodes", Value := "v" }] }

/-- An instance with both a private and a public address. -/
def instBoth : Instance :=
  { InstanceId := some "i-1", PrivateIpAddress := some "10.0.0.5",
    PublicIpAddress := some "1.2.3.4", StateName := some "running", KeyName := some "k" }

/-- An instance with neither address populated. -/
def instBare : Instance :=
  { InstanceId := some "i-2", PrivateIpAddress := none, PublicIpAddress := none,
    StateName := some "running", KeyName := some "k" }

/-- A remove oracle for the aggregate-error scenario: terminate and
DeleteKeyPair both fail. -/
def roAgg : RemoveOracle :=
  { terminateInstances := some "boom",
    describeInstances := .ok [{ Instances := [instBoth] }],
    deleteKeyPairRes := some "nokey" }

/-- Driver state owning its key pair, with an instance id recorded. -/
def stAgg : DriverState := { st0 with InstanceId := "i-0", KeyName := "k", ExistingKey := false }

/-- A sample Ebs block before mutation. -/
def exEbs : EbsBlockDevice :=
  { VolumeSize := some 8, VolumeType := some "standard", DeleteOnTermination := some false }

/-- The root-device mapping of the sample image. -/
def exBDMroot : BlockDeviceMapping := { DeviceName := "/dev/sda1", Ebs := some exEbs }

/-- A non-root mapping of the sample image. -/
def exBDMother : BlockDeviceMapping := { DeviceName := "/dev/sdb", Ebs := some exEbs }

/-- Driver state whose image has two EBS mappings. -/
def stBDM : DriverState := { st0 with bdmList := [exBDMroot, exBDMother] }

-- Block-device-mapping lemmas and claim C9.

lemma updateBDM_fold (st : DriverState) (l : List BlockDeviceMapping)
    (acc : List BlockDeviceMapping) :
    l.foldl
      (fun acc bdm =>
        match bdm.Ebs with
        | none => acc
        | some ebs => acc ++ [updateBDMEntry st bdm ebs])
      acc
      = acc ++ l.filterMap (fun bdm => bdm.Ebs.map (updateBDMEntry st bdm)) := by
  induction l generalizing acc with
  | nil => simp
  | cons b rest ih =>
    cases hb : b.Ebs with
    | none => simp [List.foldl_cons, hb, ih, List.filterMap_cons]
    | some ebs => simp [List.foldl_cons, hb, ih, List.filterMap_cons]

/-- C9: updateBDMList keeps exactly the entries with an Ebs block, overrides
volume size and type only on entries whose device name equals the configured
root device name, and forces DeleteOnTermination true on every returned
entry. -/
theorem updateBDMList_overrides (st : DriverState) :
    updateBDMList st =
      st.bdmList.filterMap (fun bdm => bdm.Ebs.map (updateBDMEntry st bdm)) ∧
    (∀ b ∈ updateBDMList st, ∃ e, b.Ebs = some e ∧ e.DeleteOnTermination = some true) ∧
    (∀ bdm ebs, bdm.DeviceName ≠ st.DeviceName →
      updateBDMEntry st bdm ebs =
        { bdm with Ebs := some { ebs with DeleteOnTermination := some true } }) ∧
    (∀ bdm ebs, bdm.DeviceName = st.DeviceName →
      updateBDMEntry st bdm ebs =
        { bdm with Ebs := some { ebs with VolumeSize := some st.RootSize,
                                          VolumeType := some st.VolumeType,
                                          DeleteOnTermination := some true } }) := by
  refine ⟨by simpa [updateBDMList] using updateBDM_fold st st.bdmList [], ?_, ?_, ?_⟩
  · intro b hb
    rw [updateBDMList, updateBDM_fold st st.bdmList []] at hb
    simp only [List.nil_append, List.mem_filterMap] at hb
    obtain ⟨bdm, _, hmap⟩ := hb
    obtain ⟨ebs, hebs, hentry⟩ := Option.map_eq_some'.mp hmap
    subst hentry
    by_cases hdev : bdm.DeviceName = st.DeviceName
    · refine ⟨{ VolumeSize := some st.RootSize, VolumeType := some st.VolumeType, DeleteOnTermination := some true }, ?_, rfl⟩
      simp [updateBDMEntry, hdev]
    · refine ⟨{ VolumeSize := ebs.VolumeSize, VolumeType := ebs.VolumeType, DeleteOnTermination := some true }, ?_, rfl⟩
      simp [updateBDMEntry, hdev]
  · intro bdm ebs hdev
    unfold updateBDMEntry
    simp [hdev]
  · intro bdm ebs hdev
    unfold updateBDMEntry
    simp [hdev]

/-- Witness for C9 at a two-mapping image: the non-root entry keeps its
size/type and gains DeleteOnTermination, the root entry is overridden. -/
theorem updateBDMList_overrides_witness :
    updateBDMEntry stBDM exBDMother exEbs =
      { exBDMother with Ebs := some { exEbs with DeleteOnTermination := some true } } ∧
    updateBDMEntry stBDM exBDMroot exEbs =
      { exBDMroot with Ebs := some { VolumeSize := some 30, VolumeType := some "gp2",
                                     DeleteOnTermination := some true } } := by
  have h := updateBDMList_overrides stBDM
  exact ⟨h.2.2.1 exBDMother exEbs (by decide), h.2.2.2 exBDMroot exEbs rfl⟩

-- Claim C10: getInstance indexes without emptiness checks.

/-- C10: getInstance unconditionally returns the first instance of the first
reservation of a successful describe response; it panics exactly when the
reservation list is empty or the first reservation holds no instance, and
GetIP, GetState and deleteKeyPair inherit that panic. -/
theorem getInstance_first_unchecked (rs : List Reservation) (st : DriverState)
    (o : RemoveOracle) :
    (∀ r rest i irest, rs = r :: rest → r.Instances = i :: irest →
       getInstance (Except.ok rs) = .ok i) ∧
    (getInstance (Except.ok rs) = .panic ↔
       rs = [] ∨ ∃ r rest, rs = r :: rest ∧ r.Instances = []) ∧
    (getInstance (Except.ok rs) = .panic →
       GetIP st (Except.ok rs) = .panic ∧ GetState (Except.ok rs) = .panic) ∧
    (st.KeyName ≠ "" → o.describeInstances = Except.ok rs →
       getInstance (Except.ok rs) = .panic → (deleteKeyPair st o).1 = .panic) := by
  refine ⟨?_, ?_, ?_, ?_⟩
  · intro r rest i irest hrs hinst
    subst hrs
    simp [getInstance, hinst]
  · cases rs with
    | nil => simp [getInstance]
    | cons r rest =>
      cases hinst : r.Instances with
      | nil => simp [getInstance, hinst]
      | cons i irest =>
        simp [getInstance, hinst]
  · intro hp
    exact ⟨by simp [GetIP, hp], by simp [GetState, hp]⟩
  · intro hk hd hp
    unfold deleteKeyPair
    rw [if_neg hk, hd, hp]

/-- Witness for C10: a reservation list whose first reservation is empty makes
getInstance, GetIP, GetState and deleteKeyPair all panic, while a populated
one returns its first instance. -/
theorem getInstance_first_unchecked_witness :
    getInstance (Except.ok [({ Instances := [] } : Reservation)]) = .panic ∧
    GetIP stAgg (Except.ok [({ Instances := [] } : Reservation)]) = .panic ∧
    (deleteKeyPair stAgg { roAgg with describeInstances := Except.ok [{ Instances := [] }] }).1 = .panic ∧
    getInstance (Except.ok [({ Instances := [instBoth] } : Reservation)]) = .ok instBoth := by
  have h1 := getInstance_first_unchecked [({ Instances := [] } : Reservation)] stAgg
    { roAgg with describeInstances := Except.ok [{ Instances := [] }] }
  have h2 := getInstance_first_unchecked [({ Instances := [instBoth] } : Reservation)] stAgg roAgg
  have hp : getInstance (Except.ok [({ Instances := [] } : Reservation)]) = .panic :=
    h1.2.1.mpr (Or.inr ⟨{ Instances := [] }, [], rfl, rfl⟩)
  exact ⟨hp, (h1.2.2.1 hp).1, h1.2.2.2 (by decide) rfl hp,
    h2.1 { Instances := [instBoth] } [] instBoth [] rfl rfl⟩

-- Claim C6: GetIP address policy.

/-- C6: whenever either private-address flag is set GetIP returns the private
address even when a public one is present, and a missing selected address
yields the named "No private IP for instance"/"No IP for instance" error. -/
theorem GetIP_address_policy (st : DriverState) (dr : Except String (List Reservation))
    (inst : Instance) (iid : String)
    (hinst : getInstance dr = .ok inst) (hid : inst.InstanceId = some iid) :
    ((st.PrivateIPOnly || st.UsePrivateIP) = true →
       (∀ p, inst.PrivateIpAddress = some p → GetIP st dr = .ok p) ∧
       (inst.PrivateIpAddress = none →
          GetIP st dr = .err ("No private IP for instance " ++ iid))) ∧
    (st.PrivateIPOnly = false → st.UsePrivateIP = false → inst.PublicIpAddress = none →
       GetIP st dr = .err ("No IP for instance " ++ iid)) := by
  constructor
  · intro hflag
    constructor
    · intro p hp
      cases hpo : st.PrivateIPOnly with
      | true => simp [GetIP, hinst, hpo, hp]
      | false =>
        have hup : st.UsePrivateIP = true := by simpa [hpo] using hflag
        simp [GetIP, hinst, hpo, hup, hp]
    · intro hnone
      cases hpo : st.PrivateIPOnly with
      | true => simp [GetIP, hinst, hpo, hnone, hid]
      | false =>
        have hup : st.UsePrivateIP = true := by simpa [hpo] using hflag
        simp [GetIP, hinst, hpo, hup, hnone, hid]
  · intro hpo hup hpub
    simp [GetIP, hinst, hpo, hup, hpub, hid]

/-- Witness for C6: with both addresses present and PrivateIPOnly set, the
private address is returned; with neither address and no flags, the named
error results. -/
theorem GetIP_address_policy_witness :
    GetIP { st0 with PrivateIPOnly := true } (Except.ok [{ Instances := [instBoth] }]) =
      .ok "10.0.0.5" ∧
    GetIP st0 (Except.ok [{ Instances := [instBare] }]) =
      .err ("No IP for instance " ++ "i-2") := by
  have h1 := GetIP_address_policy { st0 with PrivateIPOnly := true }
    (Except.ok [{ Instances := [instBoth] }]) instBoth "i-1" rfl rfl
  have h2 := GetIP_address_policy st0
    (Except.ok [{ Instances := [instBare] }]) instBare "i-2" rfl rfl
  exact ⟨(h1.1 (by decide)).1 "10.0.0.5" rfl, h2.2 rfl rfl rfl⟩

-- Claim C4: terminate tolerates missing instances.

/-- C4: terminate returns nil with no remote call for an empty instance id,
returns nil when the remote terminate error is a "not found"/"unknown
instance" condition, and returns an error exactly for the other terminate
failures (wrapped with "unable to terminate instance"). -/
theorem terminate_missing_is_success (st : DriverState) (o : RemoveOracle) :
    (st.InstanceId = "" → terminate st o = (none, [])) ∧
    (∀ e, o.terminateInstances = some e →
       (goStartsWith e "unknown instance" || goStartsWith e "InvalidInstanceID.NotFound") = true →
       (terminate st o).1 = none) ∧
    (∀ e', (terminate st o).1 = some e' →
       st.InstanceId ≠ "" ∧
       ∃ e, o.terminateInstances = some e ∧
         (goStartsWith e "unknown instance" || goStartsWith e "InvalidInstanceID.NotFound") = false ∧
         e' = "unable to terminate instance: " ++ e) := by
  refine ⟨?_, ?_, ?_⟩
  · intro h
    simp [terminate, h]
  · intro e he hpre
    by_cases hid : st.InstanceId = ""
    · simp [terminate, hid]
    · simp [terminate, hid, he, hpre]
  · intro e' he'
    by_cases hid : st.InstanceId = ""
    · simp [terminate, hid] at he'
    · refine ⟨hid, ?_⟩
      cases hterm : o.terminateInstances with
      | none => simp [terminate, hid, hterm] at he'
      | some e0 =>
        by_cases hp : (goStartsWith e0 "unknown instance" ||
            goStartsWith e0 "InvalidInstanceID.NotFound") = true
        · simp [terminate, hid, hterm, hp] at he'
        · have hp' : (goStartsWith e0 "unknown instance" ||
              goStartsWith e0 "InvalidInstanceID.NotFound") = false := by
            simpa using hp
          simp [terminate, hid, hterm, hp'] at he'
          exact ⟨e0, rfl, hp', he'.symm⟩

/-- Witness for C4: an empty id is a no-op success, a "not found" terminate
answer is success, and an unrelated failure is an error. -/
theorem terminate_missing_is_success_witness :
    terminate st0 roC1 = (none, []) ∧
    (terminate stC1 { roC1 with terminateInstances := some "unknown instance: i-0" }).1 = none ∧
    (terminate stC1 roC1).1 = some "unable to terminate instance: boom" := by
  have h1 := terminate_missing_is_success st0 roC1
  have h2 := terminate_missing_is_success stC1
    { roC1 with terminateInstances := some "unknown instance: i-0" }
  refine ⟨h1.1 rfl, h2.2.1 "unknown instance: i-0" rfl (by decide), rfl⟩

-- Claim C5: Remove aggregates independent teardown failures.

/-- C5: Remove always runs terminate (submitting the terminate call whenever
an instance id is recorded), runs deleteKeyPair exactly when the key pair is
system-owned, never touches a caller-supplied key pair, and collects the two
failures into one aggregate instead of short-circuiting. -/
theorem Remove_aggregates_failures (st : DriverState) (o : RemoveOracle) :
    ((Remove st o).deleteKeyPairCalled = !st.ExistingKey) ∧
    (st.InstanceId ≠ "" → RemoteCall.terminateInstances st.InstanceId ∈ (Remove st o).trace) ∧
    (st.ExistingKey = true → ∀ k, RemoteCall.deleteKeyPair k ∉ (Remove st o).trace) ∧
    (∀ e1 e2, (terminate st o).1 = some e1 → st.ExistingKey = false →
       (deleteKeyPair st o).1 = .err e2 → (Remove st o).res = .ok [e1, e2]) := by
  refine ⟨?_, ?_, ?_, ?_⟩
  · cases hex : st.ExistingKey with
    | true => simp [Remove, hex]
    | false =>
      rcases hdel : deleteKeyPair st o with ⟨r, tr⟩
      cases r <;> simp [Remove, hex, hdel]
  · intro hid
    have htr : (terminate st o).2 = [RemoteCall.terminateInstances st.InstanceId] := by
      cases hterm : o.terminateInstances with
      | none => simp [terminate, hid, hterm]
      | some e =>
        by_cases hp : (goStartsWith e "unknown instance" ||
            goStartsWith e "InvalidInstanceID.NotFound") = true
        · simp [terminate, hid, hterm, hp]
        · simp [terminate, hid, hterm, hp]
    cases hex : st.ExistingKey with
    | true => simp [Remove, hex, htr]
    | false =>
      rcases hdel : deleteKeyPair st o with ⟨r, tr⟩
      cases r <;> simp [Remove, hex, hdel, htr]
  · intro hex k
    have htr : ∀ c ∈ (terminate st o).2, c ≠ RemoteCall.deleteKeyPair k := by
      by_cases hid : st.InstanceId = ""
      · simp [terminate, hid]
      · cases hterm : o.terminateInstances with
        | none => simp [terminate, hid, hterm]
        | some e =>
          by_cases hp : (goStartsWith e "unknown instance" ||
              goStartsWith e "InvalidInstanceID.NotFound") = true
          · simp [terminate, hid, hterm, hp]
          · simp [terminate, hid, hterm, hp]
    intro hc
    have : (Remove st o).trace = (terminate st o).2 := by simp [Remove, hex]
    rw [this] at hc
    exact htr _ hc rfl
  · intro e1 e2 hterm hex hdel
    have herrs :
        (match (terminate st o).1 with
          | some e => [e]
          | none => []) = [e1] := by rw [hterm]
    rcases hd : deleteKeyPair st o with ⟨r, tr⟩
    rw [hd] at hdel
    simp only at hdel
    subst hdel
    simp [Remove, hex, hterm, hd]

/-- Witness for C5: with a recorded instance id, a system-owned key, and both
remote calls failing, Remove reports both errors in order. -/
theorem Remove_aggregates_failures_witness :
    (Remove stAgg roAgg).res = .ok ["unable to terminate instance: boom", "nokey"] ∧
    (Remove stAgg roAgg).deleteKeyPairCalled = true := by
  have h := Remove_aggregates_failures stAgg roAgg
  exact ⟨h.2.2.2 "unable to terminate instance: boom" "nokey" rfl rfl rfl, h.1⟩

-- String lemmas for the cluster-id slice, and claim C2.

lemma string_data_append (s t : String) : (s ++ t).data = s.data ++ t.data := by
  cases s
  cases t
  rfl

lemma string_mk_data (s : String) : String.mk s.data = s := by
  cases s
  rfl

lemma indexByteAux_not_mem (l : List Char) (b : Char) (h : b ∉ l) :
    indexByteAux l b = -1 := by
  induction l with
  | nil => rfl
  | cons c rest ih =>
    simp only [List.mem_cons, not_or] at h
    simp only [indexByteAux]
    rw [if_neg (fun hc => h.1 hc.symm), ih h.2]
    decide

lemma indexByteAux_append (l1 l2 : List Char) (b : Char) (h : b ∉ l1) :
    indexByteAux (l1 ++ b :: l2) b = (l1.length : Int) := by
  induction l1 with
  | nil => simp [indexByteAux]
  | cons c rest ih =>
    simp only [List.mem_cons, not_or] at h
    simp only [List.cons_append, indexByteAux]
    rw [if_neg (fun hc => h.1 hc.symm)]
    simp only [List.append_eq]
    rw [ih h.2]
    rw [if_neg (by omega)]
    simp only [List.length_cons]
    omega

lemma goSliceTo_cluster (pre post : String) (h : ( '-' ) ∉ pre.data) :
    goSliceTo (pre ++ "-" ++ post) (indexByte (pre ++ "-" ++ post) '-') = some pre := by
  have hdata : (pre ++ "-" ++ post).data = pre.data ++ '-' :: post.data := by
    rw [string_data_append, string_data_append]
    simp
  rw [indexByte, hdata, indexByteAux_append _ _ _ h]
  unfold goSliceTo
  rw [hdata]
  rw [if_neg ?side]
  case side =>
    simp only [not_or, not_lt]
    constructor
    · positivity
    · simp only [List.length_append, List.length_cons]
      push_cast
      omega
  rw [Int.toNat_ofNat, List.take_left, string_mk_data]

/-- C2 (amended): configureTags derives the cluster identifier as the host
name's prefix before its first hyphen; when the host name contains no hyphen
the slice index is -1 and the operation panics (Go slice-bounds panic)
instead of completing. -/
theorem configureTags_cluster_id (pre post tg iid : String) (res : Option String)
    (hpre : ( '-' ) ∉ pre.data) :
    buildTags (pre ++ "-" ++ post) tg =
      some ([{ Key := "Name", Value := pre ++ "-" ++ post },
             { Key := "OscK8sClusterID/" ++ pre, Value := "owned" },
             { Key := "OscK8sNodeName", Value := pre ++ "-" ++ post }] ++
            (if tg ≠ "" then pairTags (splitChar tg ',') else [])) ∧
    (∀ name : String, ( '-' ) ∉ name.data → (configureTags name iid tg res).1 = GoResult.panic) := by
  constructor
  · unfold buildTags
    rw [goSliceTo_cluster pre post hpre]
    by_cases htg : tg = ""
    · simp [htg]
    · simp [htg]
  · intro name hname
    have hidx : indexByte name '-' = -1 := indexByteAux_not_mem name.data '-' hname
    have hslice : goSliceTo name (indexByte name '-') = none := by
      rw [hidx]
      unfold goSliceTo
      rw [if_pos (Or.inl (by decide))]
    unfold configureTags buildTags
    rw [hslice]

/-- Counterexample for C2 as stated: with the hyphen-free host name
"nohyphen" the tagging step panics; it does not complete with an unexpected
tag key. -/
theorem configureTags_no_hyphen_panics :
    (configureTags "nohyphen" "i-0" "k,v" none).1 = GoResult.panic := by decide

/-- Witness for C2: host name "cl-n1" yields the cluster-ownership key
"OscK8sClusterID/cl" and the user tag pair. -/
theorem configureTags_cluster_id_witness :
    buildTags "cl-n1" "k1,v1" =
      some [{ Key := "Name", Value := "cl-n1" },
            { Key := "OscK8sClusterID/cl", Value := "owned" },
            { Key := "OscK8sNodeName", Value := "cl-n1" },
            { Key := "k1", Value := "v1" }] := by
  have h := (configureTags_cluster_id "cl" "n1" "k1,v1" "i-0" none (by decide)).1
  have e : "cl" ++ "-" ++ "n1" = "cl-n1" := rfl
  rw [e] at h
  rw [h]
  decide

-- Key-pair name lemmas and claim C8.

lemma charList_getD_mem : ∀ n, n < 52 → charList.getD n 'a' ∈ charList := by decide

lemma charList_alnum : ∀ c ∈ charList, (c.isAlpha || c.isDigit) = true := by decide

/-- C8: for a system-generated key pair (no caller-supplied remote key-pair
name), createKeyPair names the remote key "host name-" followed by a
5-character suffix of alphanumeric characters, imports the public key, and
records the chosen name. -/
theorem createKeyPair_generated_name (o : Oracle) (st : DriverState) (pub : String)
    (hkey : st.KeyName = "")
    (hgen : st.SSHPrivateKeyPath = "" → o.generateSSHKey = none)
    (hcopy : st.SSHPrivateKeyPath ≠ "" → o.copyPrivateKey = none ∧ o.copyPublicKey = none)
    (hread : o.readPublicKey = .ok pub)
    (himp : o.importKeyPair = none)
    (hrand : ∀ i : Fin 5, o.randIdx i < 52) :
    (createKeyPair o st).res = .ok () ∧
    (createKeyPair o st).st.KeyName = st.MachineName ++ "-" ++ keySuffix o ∧
    (keySuffix o).data.length = 5 ∧
    (∀ c ∈ (keySuffix o).data, (c.isAlpha || c.isDigit) = true) ∧
    (createKeyPair o st).trace =
      [RemoteCall.importKeyPair (st.MachineName ++ "-" ++ keySuffix o) pub] := by
  have himport : createKeyPairImport o st =
      ⟨.ok (), { st with KeyName := st.MachineName ++ "-" ++ keySuffix o },
       [RemoteCall.importKeyPair (st.MachineName ++ "-" ++ keySuffix o) pub]⟩ := by
    unfold createKeyPairImport
    rw [hread, himp]
  have hck : createKeyPair o st =
      ⟨.ok (), { st with KeyName := st.MachineName ++ "-" ++ keySuffix o },
       [RemoteCall.importKeyPair (st.MachineName ++ "-" ++ keySuffix o) pub]⟩ := by
    unfold createKeyPair
    by_cases hp : st.SSHPrivateKeyPath = ""
    · rw [if_pos hp, hgen hp, himport]
    · rw [if_neg hp, (hcopy hp).1]
      simp only [hkey]
      rw [if_neg (by simp), (hcopy hp).2, himport]
  have hsuffix : ∀ c ∈ (keySuffix o).data, (c.isAlpha || c.isDigit) = true := by
    intro c hc
    have : c ∈ List.ofFn (fun i : Fin 5 => charList.getD (o.randIdx i) 'a') := hc
    rw [List.mem_ofFn] at this
    obtain ⟨i, hi⟩ := this
    exact charList_alnum c (hi ▸ charList_getD_mem (o.randIdx i) (hrand i))
  refine ⟨by rw [hck], by rw [hck], ?_, hsuffix, by rw [hck]⟩
  show (List.ofFn (fun i : Fin 5 => charList.getD (o.randIdx i) 'a')).length = 5
  rw [List.length_ofFn]

/-- Witness for C8: with random indices 0..4 and host name "c-a" the key gets
imported and recorded as "c-a-abcde". -/
theorem createKeyPair_generated_name_witness :
    (createKeyPair oKey st0).res = .ok () ∧
    (createKeyPair oKey st0).st.KeyName = "c-a-abcde" ∧
    (createKeyPair oKey st0).trace = [RemoteCall.importKeyPair "c-a-abcde" "PUB"] := by
  have h := createKeyPair_generated_name oKey st0 "PUB" rfl (fun _ => rfl)
    (fun hne => absurd rfl hne) rfl rfl (by decide)
  have e : st0.MachineName ++ "-" ++ keySuffix oKey = "c-a-abcde" := by decide
  exact ⟨h.1, by rw [h.2.1, e], by rw [h.2.2.2.2, e]⟩

-- Security-group diff lemmas and claim C7.

lemma chainFold_eq (keys : List String) (pairs : List (String × IpPermission))
    (acc : List IpPermission) :
    chainFold keys acc pairs =
      acc ++ (pairs.filter (fun kr => !(keys.contains kr.1))).map Prod.snd := by
  induction pairs generalizing acc with
  | nil => simp [chainFold]
  | cons kr rest ih =>
    rw [show chainFold keys acc (kr :: rest) =
          chainFold keys (if !(keys.contains kr.1) then acc ++ [kr.2] else acc) rest from rfl]
    rw [ih, List.filter_cons]
    cases h : keys.contains kr.1 with
    | false => simp [h]
    | true => simp [h]

lemma chainFold_append (keys : List String) (acc : List IpPermission)
    (A B : List (String × IpPermission)) :
    chainFold keys (chainFold keys acc A) B = chainFold keys acc (A ++ B) := by
  simp [chainFold, List.foldl_append]

lemma addOpenPorts_all (keys : List String) (acc : List IpPermission) (l : List String)
    (h : ∀ p ∈ l, (parseInt10 (SplitPortProto p).1).isSome = true) :
    addOpenPorts keys acc l = .ok (chainFold keys acc (openPortPairs l)) := by
  induction l generalizing acc with
  | nil => simp [addOpenPorts, openPortPairs, chainFold]
  | cons p rest ih =>
    have hp := h p (List.mem_cons_self p rest)
    obtain ⟨n, hn⟩ := Option.isSome_iff_exists.mp hp
    simp only [addOpenPorts, hn]
    rw [ih _ (fun q hq => h q (List.mem_cons_of_mem _ hq))]
    congr 1
    simp only [openPortPairs, List.map_cons, chainFold, List.foldl_cons, hn, Option.getD_some]

lemma configureSecurityGroupPermissions_openPorts (st st' : DriverState) (g : SecurityGroup)
    (h : st.OpenPorts = st'.OpenPorts) :
    configureSecurityGroupPermissions st g = configureSecurityGroupPermissions st' g := by
  unfold configureSecurityGroupPermissions
  rw [h]

lemma configureSecurityGroupPermissions_eq (st : DriverState) (g : SecurityGroup)
    (h : ∀ p ∈ st.OpenPorts, (parseInt10 (SplitPortProto p).1).isSome = true) :
    configureSecurityGroupPermissions st g =
      .ok (((desiredPairs st g).filter
              (fun kr => !((inboundKeys g.IpPermissions).contains kr.1))).map Prod.snd) := by
  unfold configureSecurityGroupPermissions
  rw [addOpenPorts_all _ _ _ h]
  congr 1
  cases hc : (g.GroupName = defaultSecurityGroup && hasTagKey g.Tags machineSecurityGroupName) with
  | true =>
    show chainFold (inboundKeys g.IpPermissions)
        (chainFold (inboundKeys g.IpPermissions) [] (basePairs ++ customPairs g))
        (openPortPairs st.OpenPorts) = _
    rw [chainFold_append, chainFold_eq]
    simp [desiredPairs, hc, List.append_assoc]
  | false =>
    show chainFold (inboundKeys g.IpPermissions)
        (chainFold (inboundKeys g.IpPermissions) [] basePairs)
        (openPortPairs st.OpenPorts) = _
    rw [chainFold_append, chainFold_eq]
    simp [desiredPairs, hc, List.append_assoc]

/-- C7: the permission diff submits exactly the desired rules whose
port/protocol key is absent from the group's existing inbound keys (so an
already-present rule is never resubmitted, whatever its source); when every
desired key is present the missing set is empty and the reconciliation of a
found group submits no authorize-ingress call (empty trace). -/
theorem securityGroup_reconciliation_idempotent (o : Oracle)
    (gbn : String → Option SecurityGroup) (st : DriverState) (g : SecurityGroup)
    (name : String)
    (hparse : ∀ p ∈ st.OpenPorts, (parseInt10 (SplitPortProto p).1).isSome = true) :
    configureSecurityGroupPermissions st g =
      .ok (((desiredPairs st g).filter
              (fun kr => !((inboundKeys g.IpPermissions).contains kr.1))).map Prod.snd) ∧
    ((∀ kr ∈ desiredPairs st g, (inboundKeys g.IpPermissions).contains kr.1 = true) →
      gbn name = some g →
      configureSecurityGroupPermissions st g = .ok [] ∧
      (configureOneGroup o gbn st name).trace = []) := by
  have hchar := configureSecurityGroupPermissions_eq st g hparse
  refine ⟨hchar, fun hall hg => ?_⟩
  have hempty : configureSecurityGroupPermissions st g = .ok [] := by
    rw [hchar]
    congr 1
    rw [List.map_eq_nil_iff, List.filter_eq_nil_iff]
    intro kr hkr
    simpa using hall kr hkr
  refine ⟨hempty, ?_⟩
  have hresolve : resolveGroup o gbn st name = (.ok g, []) := by
    unfold resolveGroup
    rw [hg]
  unfold configureOneGroup
  rw [hresolve]
  cases hid : g.GroupId with
  | none =>
    simp only [hid]
  | some gid =>
    have hempty' :
        configureSecurityGroupPermissions
          { st with SecurityGroupIds := st.SecurityGroupIds ++ [gid] } g = .ok [] := by
      rw [configureSecurityGroupPermissions_openPorts
        { st with SecurityGroupIds := st.SecurityGroupIds ++ [gid] } st g rfl]
      exact hempty
    simp only [hid, hempty']
    rfl

/-- Witness for C7: a rancher-nodes group already carrying every built-in rule
yields an empty missing set and an empty reconciliation trace. -/
theorem securityGroup_reconciliation_idempotent_witness :
    configureSecurityGroupPermissions st0 gFull = .ok [] ∧
    (configureOneGroup o0 (fun _ => some gFull) st0 "rancher-nodes").trace = [] := by
  have h := securityGroup_reconciliation_idempotent o0 (fun _ => some gFull) st0 gFull
    "rancher-nodes" (by simp [st0])
  exact h.2 (by decide) rfl

-- Claim C1: Create invokes Remove and returns the original error.

/-- C1 (amended): whenever innerCreate fails, Create invokes Remove before
returning and returns exactly the original creation error; the cleanup's own
result is discarded rather than reported (only a panic inside Remove is
excluded, since panics propagate). -/
theorem Create_rollback_discards_cleanup_error (o : Oracle) (ro : RemoveOracle)
    (st : DriverState) (e : String)
    (h : (innerCreate o st).res = .err e)
    (hnp : (Remove (innerCreate o st).st ro).res ≠ .panic) :
    (Create o ro st).removeInvoked = true ∧
    (Create o ro st).res = .err e ∧
    (Create o ro st).trace =
      (innerCreate o st).trace ++ (Remove (innerCreate o st).st ro).trace := by
  rw [Create.eq_def]
  rcases hic : innerCreate o st with ⟨r1, st1, tr1⟩
  rw [hic] at h hnp
  have h1 : r1 = GoResult.err e := h
  subst h1
  dsimp only at hnp ⊢
  rcases hr : Remove st1 ro with ⟨rr, trr, dk⟩
  rw [hr] at hnp
  have hnp1 : rr ≠ GoResult.panic := hnp
  cases rr with
  | panic => exact absurd rfl hnp1
  | ok l => exact ⟨rfl, rfl, rfl⟩
  | err e2 => exact ⟨rfl, rfl, rfl⟩

/-- Counterexample for C1 as stated: innerCreate fails ("kaboom" during key
generation), the cleanup's terminate also fails, yet Create returns only the
original creation error — the cleanup failure is not reported. -/
theorem Create_hides_cleanup_failure_cex :
    (Remove stC1 roC1).res = .ok ["unable to terminate instance: boom"] ∧
    (Create oC1 roC1 stC1).removeInvoked = true ∧
    (Create oC1 roC1 stC1).res = GoResult.err "unable to create key pair: kaboom" := by
  exact ⟨rfl, rfl, rfl⟩

/-- Witness for C1: the amended theorem applied to the concrete failing run. -/
theorem Create_rollback_discards_cleanup_error_witness :
    (Create oC1 roC1 stC1).removeInvoked = true ∧
    (Create oC1 roC1 stC1).res = GoResult.err "unable to create key pair: kaboom" := by
  have h := Create_rollback_discards_cleanup_error oC1 roC1 stC1
    "unable to create key pair: kaboom" rfl (by decide)
  exact ⟨h.1, h.2.1⟩

-- Preservation and trace-shape lemmas for the first two innerCreate steps.

lemma createKeyPair_UserDataFile (o : Oracle) (st : DriverState) :
    (createKeyPair o st).st.UserDataFile = st.UserDataFile := by
  unfold createKeyPair createKeyPairImport
  repeat' split
  all_goals rfl

lemma configureOneGroup_UserDataFile (o : Oracle) (gbn : String → Option SecurityGroup)
    (st : DriverState) (n : String) :
    (configureOneGroup o gbn st n).st.UserDataFile = st.UserDataFile := by
  unfold configureOneGroup
  repeat' first
    | split
    | dsimp only

lemma configureGroupsLoop_UserDataFile (o : Oracle) (gbn : String → Option SecurityGroup) :
    ∀ (ns : List String) (st : DriverState),
      (configureGroupsLoop o gbn st ns).st.UserDataFile = st.UserDataFile := by
  intro ns
  induction ns with
  | nil => intro st; rfl
  | cons n rest ih =>
    intro st
    unfold configureGroupsLoop
    cases hres : (configureOneGroup o gbn st n).res with
    | ok a =>
      simp only [hres]
      rw [ih (configureOneGroup o gbn st n).st, configureOneGroup_UserDataFile]
    | err e => simp only [hres]; exact configureOneGroup_UserDataFile o gbn st n
    | panic => simp only [hres]; exact configureOneGroup_UserDataFile o gbn st n

lemma configureSecurityGroups_UserDataFile (o : Oracle) (st : DriverState)
    (ns : List String) :
    (configureSecurityGroups o st ns).st.UserDataFile = st.UserDataFile := by
  unfold configureSecurityGroups
  split
  · rfl
  · split
    · rfl
    · exact configureGroupsLoop_UserDataFile o _ ns st

lemma createKeyPair_preLaunch (o : Oracle) (st : DriverState) :
    ∀ c ∈ (createKeyPair o st).trace, isLaunchCall c = false := by
  unfold createKeyPair createKeyPairImport
  repeat' split
  all_goals simp [isLaunchCall]

lemma waitGroupStep_trace (o : Oracle) (g : SecurityGroup) (tr : List RemoteCall) :
    (waitGroupStep o g tr).2 = tr := by
  unfold waitGroupStep
  dsimp only
  repeat' split
  all_goals rfl

lemma tagAndWaitGroup_trace (o : Oracle) (g : SecurityGroup) (tr : List RemoteCall) :
    (tagAndWaitGroup o g tr).2 = tr ++ [RemoteCall.createTagsGroup g.GroupId] := by
  unfold tagAndWaitGroup
  dsimp only
  repeat' split
  all_goals first
    | rfl
    | rw [waitGroupStep_trace]

lemma resolveGroup_preLaunch (o : Oracle) (gbn : String → Option SecurityGroup)
    (st : DriverState) (n : String) :
    ∀ c ∈ (resolveGroup o gbn st n).2, isLaunchCall c = false := by
  unfold resolveGroup
  repeat' split
  all_goals intro c hc
  all_goals try rw [tagAndWaitGroup_trace] at hc
  all_goals simp at hc
  all_goals try subst hc
  all_goals try rfl
  all_goals rcases hc with h | h <;> subst h <;> rfl

lemma configureOneGroup_preLaunch (o : Oracle) (gbn : String → Option SecurityGroup)
    (st : DriverState) (n : String) :
    ∀ c ∈ (configureOneGroup o gbn st n).trace, isLaunchCall c = false := by
  intro c hc
  have hres := resolveGroup_preLaunch o gbn st n
  unfold configureOneGroup at hc
  rcases hrg : resolveGroup o gbn st n with ⟨r, tr⟩
  rw [hrg] at hc hres
  cases r with
  | panic => exact hres c (by dsimp only at hc; exact hc)
  | err e => exact hres c (by dsimp only at hc; exact hc)
  | ok g =>
    dsimp only at hc hres
    cases hid : g.GroupId with
    | none =>
      rw [hid] at hc
      exact hres c hc
    | some gid =>
      rw [hid] at hc
      dsimp only at hc
      cases hperm : configureSecurityGroupPermissions
          { st with SecurityGroupIds := st.SecurityGroupIds ++ [gid] } g with
      | error e =>
        rw [hperm] at hc
        dsimp only at hc
        exact hres c hc
      | ok perms =>
        rw [hperm] at hc
        dsimp only at hc
        by_cases hlen : perms.length ≠ 0
        · rw [if_pos hlen] at hc
          cases hauth : o.authorizeIngress gid with
          | some e =>
            rw [hauth] at hc
            dsimp only at hc
            split at hc
            all_goals {
              dsimp only at hc
              rcases List.mem_append.mp hc with hm | hm
              · exact hres c hm
              · rw [List.mem_singleton.mp hm]; rfl }
          | none =>
            rw [hauth] at hc
            dsimp only at hc
            rcases List.mem_append.mp hc with hm | hm
            · exact hres c hm
            · rw [List.mem_singleton.mp hm]; rfl
        · rw [if_neg hlen] at hc
          dsimp only at hc
          exact hres c hc

lemma configureGroupsLoop_preLaunch (o : Oracle) (gbn : String → Option SecurityGroup) :
    ∀ (ns : List String) (st : DriverState) (c : RemoteCall),
      c ∈ (configureGroupsLoop o gbn st ns).trace → isLaunchCall c = false := by
  intro ns
  induction ns with
  | nil => intro st c hc; simp [configureGroupsLoop] at hc
  | cons n rest ih =>
    intro st c hc
    unfold configureGroupsLoop at hc
    dsimp only at hc
    cases hres : (configureOneGroup o gbn st n).res with
    | ok a =>
      rw [hres] at hc
      dsimp only at hc
      rcases List.mem_append.mp hc with hm | hm
      · exact configureOneGroup_preLaunch o gbn st n c hm
      · exact ih (configureOneGroup o gbn st n).st c hm
    | err e =>
      rw [hres] at hc
      exact configureOneGroup_preLaunch o gbn st n c hc
    | panic =>
      rw [hres] at hc
      exact configureOneGroup_preLaunch o gbn st n c hc

lemma configureSecurityGroups_preLaunch (o : Oracle) (st : DriverState) (ns : List String) :
    ∀ c ∈ (configureSecurityGroups o st ns).trace, isLaunchCall c = false := by
  intro c hc
  unfold configureSecurityGroups at hc
  split at hc
  · simp at hc
  · split at hc
    · simp at hc
    · exact configureGroupsLoop_preLaunch o _ ns st c hc

-- Claim C3: user-data read failure.

/-- C3 (amended): when the configured user-data file cannot be read with the
first two steps succeeding, innerCreate fails with the distinct named
errorReadingUserData (not the underlying I/O error), before the instance is
launched (no launch-phase mutation is in the trace) — but after the key-pair
and security-group steps, whose remote mutations may already have happened. -/
theorem userdata_read_failure_named (o : Oracle) (st : DriverState) (ioerr : String)
    (h1 : (createKeyPair o st).res = .ok ())
    (h2 : (configureSecurityGroups o (createKeyPair o st).st
            (securityGroupNames (createKeyPair o st).st)).res = .ok ())
    (hud : st.UserDataFile ≠ "")
    (hread : o.readUserData = .error ioerr) :
    (innerCreate o st).res = .err errorReadingUserData ∧
    (innerCreate o st).trace =
      (createKeyPair o st).trace ++
        (configureSecurityGroups o (createKeyPair o st).st
          (securityGroupNames (createKeyPair o st).st)).trace ∧
    (∀ c ∈ (innerCreate o st).trace, isLaunchCall c = false) := by
  have hck := createKeyPair_UserDataFile o st
  have hpre1 := createKeyPair_preLaunch o st
  rcases hic : createKeyPair o st with ⟨r1, st1, tr1⟩
  rw [hic] at h1 h2 hck hpre1
  have h1' : r1 = .ok () := h1
  subst h1'
  dsimp only at h2 hck hpre1
  have hsg := configureSecurityGroups_UserDataFile o st1 (securityGroupNames st1)
  have hpre2 := configureSecurityGroups_preLaunch o st1 (securityGroupNames st1)
  rcases hic2 : configureSecurityGroups o st1 (securityGroupNames st1) with ⟨r2, st2, tr2⟩
  rw [hic2] at h2 hsg hpre2
  have h2' : r2 = .ok () := h2
  subst h2'
  dsimp only at hsg hpre2
  have hud2 : st2.UserDataFile ≠ "" := by rw [hsg, hck]; exact hud
  have hbud : Base64UserData o st2 = .error errorReadingUserData := by
    unfold Base64UserData
    rw [if_pos hud2, hread]
  have hinner : innerCreate o st = ⟨.err errorReadingUserData, st2, tr1 ++ tr2⟩ := by
    unfold innerCreate
    rw [hic]
    dsimp only
    rw [hic2]
    dsimp only
    rw [hbud]
  rw [hinner]
  refine ⟨rfl, rfl, ?_⟩
  intro c hc
  rcases List.mem_append.mp hc with hm | hm
  · exact hpre1 c hm
  · exact hpre2 c hm

/-- Counterexample for C3 as stated: the user-data read fails with the named
error, but a remote mutation (the key-pair import) has already been
submitted before the failure. -/
theorem userdata_read_failure_cex :
    (innerCreate exO3 exSt3).res = GoResult.err errorReadingUserData ∧
    (innerCreate exO3 exSt3).trace = [RemoteCall.importKeyPair "c-a-aaaaa" "PUB"] := by
  exact ⟨rfl, rfl⟩

/-- Witness for C3: the amended theorem applied to the concrete failing run. -/
theorem userdata_read_failure_named_witness :
    (innerCreate exO3 exSt3).res = GoResult.err errorReadingUserData ∧
    (∀ c ∈ (innerCreate exO3 exSt3).trace, isLaunchCall c = false) := by
  have h := userdata_read_failure_named exO3 exSt3 "io" rfl rfl (by decide) rfl
  exact ⟨h.1, h.2.2⟩

end Outscale
